import Mathlib

/-!
Verification of the databend-go text-format value decoder (datatype parsing code).

The Go source parses database query-result cell text into driver values.  The
decoder is compiled from a type descriptor by newDataParser and then run
against an io.RuneScanner.  This file gives a shallow embedding of that code:

* Scanner models the io.RuneScanner implementations the source actually uses
  (bytes.Buffer, strings.Reader): ReadRune consumes one rune or fails at end
  of input, and UnreadRune succeeds only when the most recent operation was a
  successful ReadRune, pushing back exactly one rune; any other UnreadRune
  call returns an error and leaves the state unchanged.  The source always
  ignores the error returned by UnreadRune.
* The low level readers readNumber, readUnquoted, readString, peakNull are
  translated line by line from the source.
* The parser family (stringParser, booleanParser, dateTimeParser, tupleParser,
  arrayParser, mapParser, intParser, floatParser, nothingParser,
  nullableParser) is an inductive type whose run function parseF mirrors each
  Parse method of the source.  parseF is driven by an explicit fuel argument
  that bounds the recursion depth and the number of composite-loop
  iterations; fuel is only consumed at the places where the Go code makes a
  nested Parse call or another loop iteration, so a statement at fuel n + k
  corresponds exactly to a Go execution of nesting depth at most n + k.
* newDataParser is the decoder compiler.  The Go function takes a pointer and
  assigns t.Nullable = false on nullable descriptors; the embedding therefore
  returns the post-call state of the descriptor tree next to the result.
-/

namespace DatabendGo

/-- One-rune-pushback character source, modelling the Go io.RuneScanner
implementations used by the source (bytes.Buffer, strings.Reader). -/
structure Scanner where
  data : List Char
  pos : Nat
  canUnread : Bool
deriving DecidableEq, Repr

/-- The Go helper read(s io.RuneScanner): ReadRune mapped to an eof sentinel.
A successful read enables exactly one pushback; a failed read disables it. -/
def Scanner.readRune (s : Scanner) : Option Char × Scanner :=
  match s.data[s.pos]? with
  | some c => (some c, ⟨s.data, s.pos + 1, true⟩)
  | none => (none, ⟨s.data, s.pos, false⟩)

/-- Go UnreadRune with its error ignored, as written in the source.  The
pushback succeeds only directly after a successful ReadRune. -/
def Scanner.unreadRune (s : Scanner) : Scanner :=
  if s.canUnread then ⟨s.data, s.pos - 1, false⟩ else s

def Scanner.fromString (str : String) : Scanner :=
  ⟨str.toList, 0, false⟩

/-- The input not yet consumed. -/
def Scanner.rest (s : Scanner) : List Char :=
  s.data.drop s.pos

/-- Loop body of readNumber: read runes until eof or a structural delimiter,
pushing the delimiter back.  The fuel is instantiated with more than the
remaining input length, so it never runs out (every iteration consumes). -/
def readNumberLoop : Nat → Scanner → List Char → List Char × Scanner
  | 0, s, acc => (acc.reverse, s)
  | fuel + 1, s, acc =>
    match s.readRune with
    | (none, s') => (acc.reverse, s')
    | (some c, s') =>
      if c = ',' ∨ c = ']' ∨ c = ')' then (acc.reverse, s'.unreadRune)
      else readNumberLoop fuel s' (c :: acc)

/-- Source readNumber: accumulate runes up to eof or one of the delimiters
comma, closing bracket, closing parenthesis.  Never returns an error. -/
def readNumber (s : Scanner) : String × Scanner :=
  let r := readNumberLoop (s.data.length + 1) s []
  (String.mk r.1, r.2)

/-- Modelled from the spec: the helper readEscaped is not part of the provided
source.  The spec states that backslash-escape decoding recognizes standard
escape sequences and that a backslash followed by the letter N is only special
in the null-check fast path, and the source itself compares escape-processed
text against the three characters quote N quote, which requires readEscaped to
map N to itself.  Unknown escapes therefore pass the rune through unchanged;
end of input inside an escape is an error. -/
def readEscaped (s : Scanner) : Except String Char × Scanner :=
  match s.readRune with
  | (none, s') => (.error "unexpected end of input in escape", s')
  | (some c, s') =>
    let r :=
      if c = 'b' then '\x08'
      else if c = 'f' then '\x0c'
      else if c = 'r' then '\r'
      else if c = 'n' then '\n'
      else if c = 't' then '\t'
      else if c = '0' then '\x00'
      else c
    (.ok r, s')

/-- Loop body of readUnquoted.  Counts decoded runes; stops at eof or when
length runes were read (a length of zero means unbounded).  Returns the
decoded runes together with the count.  The fuel is instantiated with more
than the remaining input length and never runs out. -/
def readUnquotedLoop : Nat → Scanner → Int → Int → List Char →
    Except String (List Char × Int) × Scanner
  | 0, s, _, count, acc => (.ok (acc.reverse, count), s)
  | fuel + 1, s, length, count, acc =>
    if length = 0 ∨ count < length then
      match s.readRune with
      | (none, s') => (.ok (acc.reverse, count), s')
      | (some c, s') =>
        if c = '\\' then
          match readEscaped s' with
          | (.error _, s'') => (.error "incorrect escaping in string", s'')
          | (.ok r, s'') => readUnquotedLoop fuel s'' length (count + 1) (r :: acc)
        else readUnquotedLoop fuel s' length (count + 1) (c :: acc)
    else (.ok (acc.reverse, count), s)

/-- Source readUnquoted: read exactly length runes (or all input when length
is zero) with backslash-escape decoding; a short read against a nonzero
length is an error. -/
def readUnquoted (s : Scanner) (length : Int) : Except String String × Scanner :=
  match readUnquotedLoop (s.data.length + 1) s length 0 [] with
  | (.error e, s') => (.error e, s')
  | (.ok (cs, count), s') =>
    if length ≠ 0 ∧ count ≠ length then (.error "unexpected string length", s')
    else (.ok (String.mk cs), s')

/-- Source readString: an optional surrounding single-quote pair around
readUnquoted, controlled by the unquote flag. -/
def readString (s : Scanner) (length : Int) (unquote : Bool) :
    Except String String × Scanner :=
  if unquote then
    match s.readRune with
    | (some '\'', s1) =>
      match readUnquoted s1 length with
      | (.error _, s2) => (.error "failed to read string", s2)
      | (.ok str, s2) =>
        match s2.readRune with
        | (some '\'', s3) => (.ok str, s3)
        | (_, s3) => (.error "unexpected character instead of a quote", s3)
    | (_, s1) => (.error "unexpected character instead of a quote", s1)
  else
    match readUnquoted s length with
    | (.error _, s2) => (.error "failed to read string", s2)
    | (.ok str, s2) => (.ok str, s2)

/-- Source peakNull, translated call by call: five reads checking for the
runes N U L L followed by end of input; on each mismatch it issues as many
UnreadRune calls as runes were read, but only the first such call can
succeed, exactly as with the Go scanners. -/
def peakNull (s : Scanner) : Bool × Scanner :=
  match s.readRune with
  | (r1, s1) =>
    if r1 ≠ some 'N' then (false, s1.unreadRune)
    else
      match s1.readRune with
      | (r2, s2) =>
        if r2 ≠ some 'U' then (false, s2.unreadRune.unreadRune)
        else
          match s2.readRune with
          | (r3, s3) =>
            if r3 ≠ some 'L' then (false, s3.unreadRune.unreadRune.unreadRune)
            else
              match s3.readRune with
              | (r4, s4) =>
                if r4 ≠ some 'L' then
                  (false, s4.unreadRune.unreadRune.unreadRune.unreadRune)
                else
                  match s4.readRune with
                  | (r5, s5) =>
                    if r5 ≠ none then
                      (false,
                        s5.unreadRune.unreadRune.unreadRune.unreadRune.unreadRune)
                    else (true, s5)

/-- The TypeDesc tree consumed by newDataParser: a type name, ordered
argument descriptors and a nullable flag. -/
inductive TypeDesc where
  | mk (name : String) (args : List TypeDesc) (nullable : Bool)

def TypeDesc.name : TypeDesc → String
  | .mk n _ _ => n

def TypeDesc.args : TypeDesc → List TypeDesc
  | .mk _ a _ => a

def TypeDesc.isNullable : TypeDesc → Bool
  | .mk _ _ nb => nb

mutual

def TypeDesc.size : TypeDesc → Nat
  | .mk _ args _ => 1 + TypeDesc.sizeList args

def TypeDesc.sizeList : List TypeDesc → Nat
  | [] => 0
  | a :: rest => 1 + TypeDesc.size a + TypeDesc.sizeList rest

end

/- True when no nullable flag is set anywhere in the descriptor tree. -/
mutual

def TypeDesc.noNullable : TypeDesc → Bool
  | .mk _ args nb => !nb && TypeDesc.noNullableList args

def TypeDesc.noNullableList : List TypeDesc → Bool
  | [] => true
  | a :: rest => TypeDesc.noNullable a && TypeDesc.noNullableList rest

end

/-- Time zone attached to a date/time decoder.  Go time.Location values are
represented by their resolved names; utc stands for the time.UTC location. -/
inductive Location where
  | utc
  | named (name : String)
deriving DecidableEq, Repr

/-- Modelled from the spec: the external Go time zone database consulted by
time.LoadLocation.  Membership in this list stands for successful resolution
of a zone name; any other nonempty name other than UTC fails to resolve. -/
def knownZones : List String :=
  ["Asia/Shanghai", "America/New_York", "Europe/London", "Local"]

/-- Modelled from the spec: Go time.LoadLocation.  The empty name and UTC
resolve to the UTC location; known zone names resolve to themselves; anything
else is a resolution error, which the compiler turns into a build error. -/
def loadLocation (nm : String) : Except String Location :=
  if nm = "" ∨ nm = "UTC" then .ok .utc
  else if nm ∈ knownZones then .ok (.named nm)
  else .error "unknown time zone"

/-- Source DataParserOptions.  A Go nil pointer is represented by wrapping in
Option at every use site. -/
structure DataParserOptions where
  location : Option Location
  useDBLocation : Bool
deriving DecidableEq, Repr

def digitVal (c : Char) : Nat := c.toNat - '0'.toNat

def digitsToNat (ds : List Char) : Nat :=
  ds.foldl (fun acc c => acc * 10 + digitVal c) 0

/-- Modelled from the spec: Go strconv.Atoi on the argument texts of a type
descriptor: an optional sign followed by at least one decimal digit. -/
def goAtoi (str : String) : Except String Int :=
  match str.toList with
  | [] => .error "invalid syntax"
  | '+' :: ds =>
    if ds ≠ [] ∧ ds.all Char.isDigit then .ok (digitsToNat ds) else .error "invalid syntax"
  | '-' :: ds =>
    if ds ≠ [] ∧ ds.all Char.isDigit then .ok (-(digitsToNat ds : Int))
    else .error "invalid syntax"
  | ds =>
    if ds.all Char.isDigit then .ok (digitsToNat ds) else .error "invalid syntax"

/-- Modelled from the spec: Go strconv.ParseBool, with its exact set of
accepted literals. -/
def goParseBool (str : String) : Except String Bool :=
  if str = "1" ∨ str = "t" ∨ str = "T" ∨ str = "TRUE" ∨ str = "true" ∨ str = "True" then
    .ok true
  else if str = "0" ∨ str = "f" ∨ str = "F" ∨ str = "FALSE" ∨ str = "false" ∨ str = "False" then
    .ok false
  else .error "invalid syntax"

/-- A decimal literal sign * mant * 10 ^ exp, the result of numeric parsing.
Kept symbolic: the IEEE-754 double rounding that Go strconv.ParseFloat
performs is outside this embedding, and no settled claim depends on it. -/
structure NumLit where
  neg : Bool
  mant : Nat
  exp : Int
deriving DecidableEq, Repr

/-- Splits a character list at the first occurrence satisfying p. -/
def splitAtChar (p : Char → Bool) (cs : List Char) : List Char × List Char :=
  (cs.takeWhile (fun c => !p c), cs.dropWhile (fun c => !p c))

/-- Modelled from the spec: the decimal syntax accepted by Go
strconv.ParseFloat: optional sign, digits with an optional fraction part, and
an optional exponent.  Special literals such as NaN and the infinities and
hexadecimal floats are not modelled; no settled claim feeds them in. -/
def goParseFloat (str : String) : Except String NumLit :=
  let cs := str.toList
  let (neg, cs) :=
    match cs with
    | '-' :: rest => (true, rest)
    | '+' :: rest => (false, rest)
    | rest => (false, rest)
  let (mantPart, expPart) := splitAtChar (fun c => c = 'e' ∨ c = 'E') cs
  let (intDigits, fracTail) := splitAtChar (fun c => c = '.') mantPart
  let fracDigits := fracTail.drop 1
  if intDigits.all Char.isDigit ∧ fracDigits.all Char.isDigit ∧
      (intDigits ≠ [] ∨ fracDigits ≠ []) ∧
      (fracTail ≠ [] → fracTail.head? = some '.') then
    let mant := digitsToNat (intDigits ++ fracDigits)
    let baseExp : Int := -(fracDigits.length : Int)
    match expPart with
    | [] => .ok ⟨neg, mant, baseExp⟩
    | _ :: expRest =>
      let (eneg, eds) :=
        match expRest with
        | '-' :: r => (true, r)
        | '+' :: r => (false, r)
        | r => (false, r)
      if eds ≠ [] ∧ eds.all Char.isDigit then
        let e : Int := if eneg then -(digitsToNat eds : Int) else (digitsToNat eds : Int)
        .ok ⟨neg, mant, baseExp + e⟩
      else .error "invalid syntax"
  else .error "invalid syntax"

/-- Truncation of a decimal literal toward zero, the defined part of the Go
conversion from a float to an integer type.  Out-of-range conversions are
unspecified in Go; settled claims only evaluate small in-range values. -/
def NumLit.trunc (n : NumLit) : Int :=
  let a : Nat :=
    if 0 ≤ n.exp then n.mant * 10 ^ n.exp.toNat
    else n.mant / 10 ^ (-n.exp).toNat
  if n.neg then -(a : Int) else (a : Int)

/-- Wraps an integer into the given bit width (two's complement for the
signed case).  In range this is the identity; the Go behavior out of range is
unspecified and never exercised by the settled claims. -/
def intWrap (signed : Bool) (bits : Nat) (n : Int) : Int :=
  let m : Int := 2 ^ bits
  let u := ((n % m) + m) % m
  if signed ∧ u ≥ 2 ^ (bits - 1) then u - m else u

/-- The result of Go time.ParseInLocation, kept symbolic: zero is the Go zero
time.Time value, and parsed records the inputs of a format parse.  Format
parse failures are not modelled; no settled claim depends on them. -/
inductive Timestamp where
  | zero
  | parsed (format text : String) (loc : Location)
deriving DecidableEq, Repr

/-- The driver.Value results of the parsers: null is a Go nil interface
value; integer values are tagged with sign and bit width like the Go int8 ..
uint64 results; float values keep their decimal literal. -/
inductive Value where
  | null
  | str (s : String)
  | boolean (b : Bool)
  | intv (signed : Bool) (bitSize : Nat) (v : Int)
  | floatv (bitSize : Nat) (v : NumLit)
  | time (t : Timestamp)
  | arr (elems : List Value)
  | tup (elems : List Value)
  | mapv (pairs : List (Value × Value))

/-- The compiled decoder family, one constructor per parser struct of the
source, with the same configuration fields. -/
inductive Parser where
  | stringParser (unquote : Bool) (length : Int)
  | booleanParser (length : Int)
  | dateTimeParser (unquote : Bool) (format : String) (location : Location) (precision : Nat)
  | tupleParser (args : List Parser)
  | arrayParser (arg : Parser)
  | mapParser (key value : Parser)
  | intParser (signed : Bool) (bitSize : Nat)
  | floatParser (bitSize : Nat)
  | nothingParser
  | nullableParser (inner : Parser) (innerType : String)

/-- Modelled from the spec: the dateFormat constant (Go reference date in
date-only form).  Only its shape matters to the claims: ten characters with
no space and no dot. -/
def dateFormat : String := "2006-01-02"

/-- Modelled from the spec: the timeFormat constant, second precision. -/
def timeFormat : String := "2006-01-02 15:04:05"

/-- Modelled from the spec: the dateTime64Format constant with a fractional
second segment after the dot at index 19. -/
def dateTime64Format : String := "2006-01-02 15:04:05.999999"

/-- The location Go computes for Date and Timestamp: opt.Location when the
options pointer and the field are set, else UTC. -/
def optLocOrUTC : Option DataParserOptions → Location
  | none => .utc
  | some o => o.location.getD .utc

/-- The condition under which DateTime and DateTime64 consult their time zone
argument: opt == nil or opt.Location == nil or opt.UseDBLocation. -/
def useArgZone : Option DataParserOptions → Bool
  | none => true
  | some o => o.location.isNone || o.useDBLocation

/-- The outcome of the type-name switch of newDataParser.  The Go switch
compares t.Name against string literals in source order; typeTagOf performs
exactly those comparisons (first match wins, sharing the arm that the ten
opaque-string type names share), so that the dispatch below can case on a
small inductive instead of a thirty-armed string match. -/
inductive TypeTag where
  | nothingTag
  | nullableTag
  | nullTag
  | dateTag
  | dateTimeTag
  | dateTime64Tag
  | timestampTag
  | booleanTag
  | intTag (signed : Bool) (bitSize : Nat)
  | floatTag (bitSize : Nat)
  | opaqueStringTag
  | fixedStringTag
  | arrayTag
  | tupleTag
  | mapTag
  | unsupportedTag
deriving DecidableEq, Repr

/-- The name comparisons of the Go switch, in source order. -/
def typeTagOf (nm : String) : TypeTag :=
  if nm = "Nothing" then .nothingTag
  else if nm = "Nullable" then .nullableTag
  else if nm = "NULL" then .nullTag
  else if nm = "Date" then .dateTag
  else if nm = "DateTime" then .dateTimeTag
  else if nm = "DateTime64" then .dateTime64Tag
  else if nm = "Timestamp" then .timestampTag
  else if nm = "Boolean" then .booleanTag
  else if nm = "UInt8" then .intTag false 8
  else if nm = "UInt16" then .intTag false 16
  else if nm = "UInt32" then .intTag false 32
  else if nm = "UInt64" then .intTag false 64
  else if nm = "Int8" then .intTag true 8
  else if nm = "Int16" then .intTag true 16
  else if nm = "Int32" then .intTag true 32
  else if nm = "Int64" then .intTag true 64
  else if nm = "Float32" then .floatTag 32
  else if nm = "Float64" then .floatTag 64
  else if nm = "Decimal" ∨ nm = "String" ∨ nm = "Enum8" ∨ nm = "Bitmap" ∨
      nm = "Enum16" ∨ nm = "UUID" ∨ nm = "IPv4" ∨ nm = "IPv6" ∨
      nm = "Variant" ∨ nm = "VariantObject" then .opaqueStringTag
  else if nm = "FixedString" then .fixedStringTag
  else if nm = "Array" then .arrayTag
  else if nm = "Tuple" then .tupleTag
  else if nm = "Map" then .mapTag
  else .unsupportedTag

mutual

/-- Source newDataParser.  The Go function takes the descriptor by pointer
and, when the nullable flag is set, assigns t.Nullable = false before
recursing; the recursion then lands in the type-name dispatch, which is
newDataParserCore here.  The returned TypeDesc is the state of the caller's
descriptor tree after the call, making that mutation observable.  As with
parseF, the fuel argument bounds the recursion depth (two units per
descriptor level); running out is reported as an error and never happens at
the fuel bounds used below. -/
def newDataParser : Nat → TypeDesc → Bool → Option DataParserOptions →
    Except String Parser × TypeDesc
  | 0, t, _, _ => (.error "insufficient fuel", t)
  | fuel + 1, t, unquote, opt =>
    match t with
    | .mk nm args true =>
      (match newDataParserCore fuel nm args unquote opt with
       | (.ok p, args') => (.ok (.nullableParser p nm), .mk nm args' false)
       | (.error e, args') => (.error e, .mk nm args' false))
    | .mk nm args false =>
      (match newDataParserCore fuel nm args unquote opt with
       | (r, args') => (r, .mk nm args' false))

/-- The type-name dispatch of newDataParser (the switch on t.Name), acting on
a descriptor whose nullable flag is clear.  Returns the compiled parser and
the post-call state of the argument descriptors. -/
def newDataParserCore : Nat → String → List TypeDesc → Bool →
    Option DataParserOptions → Except String Parser × List TypeDesc
  | 0, _, args, _, _ => (.error "insufficient fuel", args)
  | fuel + 1, nm, args, unquote, opt =>
  match typeTagOf nm with
  | .nothingTag => (.ok .nothingParser, args)
  | .nullableTag =>
    (match args with
     | [] => (.error "panic: index out of range", args)
     | a :: rest =>
       match newDataParser fuel a unquote opt with
       | (.ok inner, a') => (.ok (.nullableParser inner a'.name), a' :: rest)
       | (.error e, a') => (.error e, a' :: rest))
  | .nullTag => (.ok (.nullableParser (.stringParser unquote 0) "String"), args)
  | .dateTag => (.ok (.dateTimeParser unquote dateFormat (optLocOrUTC opt) 0), args)
  | .dateTimeTag =>
    (match args with
     | a :: _ =>
       if useArgZone opt then
         (match loadLocation a.name with
          | .ok loc => (.ok (.dateTimeParser unquote timeFormat loc 0), args)
          | .error e => (.error e, args))
       else (.ok (.dateTimeParser unquote timeFormat (optLocOrUTC opt) 0), args)
     | [] => (.ok (.dateTimeParser unquote timeFormat (optLocOrUTC opt) 0), args))
  | .dateTime64Tag =>
    (match args with
     | [] => (.error "tick size not specified for DateTime64", args)
     | a :: rest =>
       match (match rest with
              | b :: _ =>
                if useArgZone opt then loadLocation b.name
                else .ok (optLocOrUTC opt)
              | [] => .ok (optLocOrUTC opt)) with
       | .error e => (.error e, args)
       | .ok loc =>
         match goAtoi a.name with
         | .error e => (.error e, args)
         | .ok precision =>
           if precision < 0 then
             (.error "malformed tick size specified for DateTime64", args)
           else
             (.ok (.dateTimeParser unquote dateTime64Format loc precision.toNat),
               args))
  | .timestampTag =>
    (.ok (.dateTimeParser unquote dateTime64Format (optLocOrUTC opt) 1), args)
  | .booleanTag => (.ok (.booleanParser 0), args)
  | .intTag signed bits => (.ok (.intParser signed bits), args)
  | .floatTag bits => (.ok (.floatParser bits), args)
  | .opaqueStringTag => (.ok (.stringParser unquote 0), args)
  | .fixedStringTag =>
    (match args with
     | [a] =>
       (match goAtoi a.name with
        | .error _ => (.error "malformed length specified for FixedString", args)
        | .ok len => (.ok (.stringParser unquote len), args))
     | _ => (.error "length not specified for FixedString", args))
  | .arrayTag =>
    (match args with
     | [a] =>
       (match newDataParser fuel a true opt with
        | (.ok sub, a') => (.ok (.arrayParser sub), [a'])
        | (.error _, a') =>
          (.error "failed to create parser for array elements", [a']))
     | _ => (.error "element type not specified for Array", args))
  | .tupleTag =>
    (match args with
     | [] => (.error "element types not specified for Tuple", args)
     | a :: rest =>
       match newDataParserList fuel (a :: rest) opt with
       | (.ok subs, args') => (.ok (.tupleParser subs), args')
       | (.error _, args') =>
         (.error "failed to create parser for tuple element", args'))
  | .mapTag =>
    (match args with
     | [a, b] =>
       (match newDataParser fuel a true opt with
        | (.error _, a') => (.error "failed to create parser for map keys", [a', b])
        | (.ok keyP, a') =>
          match newDataParser fuel b true opt with
          | (.error _, b') => (.error "failed to create parser for map values", [a', b'])
          | (.ok valP, b') => (.ok (.mapParser keyP valP), [a', b']))
     | _ => (.error "incorrect number of arguments for Map", args))
  | .unsupportedTag => (.error ("type " ++ nm ++ " is not supported"), args)

/-- Sequential compilation of tuple element descriptors, each with the
quoted-string flag forced on, threading the post-call descriptor states. -/
def newDataParserList : Nat → List TypeDesc → Option DataParserOptions →
    Except String (List Parser) × List TypeDesc
  | 0, l, _ => (.error "insufficient fuel", l)
  | fuel + 1, l, opt =>
  match l with
  | [] => (.ok [], [])
  | a :: rest =>
    match newDataParser fuel a true opt with
    | (.error e, a') => (.error e, a' :: rest)
    | (.ok p, a') =>
      match newDataParserList fuel rest opt with
      | (.error e, rest') => (.error e, a' :: rest')
      | (.ok ps, rest') => (.ok (p :: ps), a' :: rest')

end

/-- The exported construction entry point NewDataParser. -/
def NewDataParser (t : TypeDesc) (opt : Option DataParserOptions) :
    Except String Parser × TypeDesc :=
  newDataParser (2 * t.size + 2) t false opt

/-- Definitional unfolding of newDataParserCore at a positive fuel, stated
once so that proofs can case on the dispatch tag. -/
theorem newDataParserCore_succ (fuel : Nat) (nm : String) (args : List TypeDesc)
    (unquote : Bool) (opt : Option DataParserOptions) :
    newDataParserCore (fuel + 1) nm args unquote opt =
      (match typeTagOf nm with
       | .nothingTag => (.ok .nothingParser, args)
       | .nullableTag =>
         (match args with
          | [] => (.error "panic: index out of range", args)
          | a :: rest =>
            match newDataParser fuel a unquote opt with
            | (.ok inner, a') => (.ok (.nullableParser inner a'.name), a' :: rest)
            | (.error e, a') => (.error e, a' :: rest))
       | .nullTag => (.ok (.nullableParser (.stringParser unquote 0) "String"), args)
       | .dateTag =>
         (.ok (.dateTimeParser unquote dateFormat (optLocOrUTC opt) 0), args)
       | .dateTimeTag =>
         (match args with
          | a :: _ =>
            if useArgZone opt then
              (match loadLocation a.name with
               | .ok loc => (.ok (.dateTimeParser unquote timeFormat loc 0), args)
               | .error e => (.error e, args))
            else (.ok (.dateTimeParser unquote timeFormat (optLocOrUTC opt) 0), args)
          | [] => (.ok (.dateTimeParser unquote timeFormat (optLocOrUTC opt) 0), args))
       | .dateTime64Tag =>
         (match args with
          | [] => (.error "tick size not specified for DateTime64", args)
          | a :: rest =>
            match (match rest with
                   | b :: _ =>
                     if useArgZone opt then loadLocation b.name
                     else .ok (optLocOrUTC opt)
                   | [] => .ok (optLocOrUTC opt)) with
            | .error e => (.error e, args)
            | .ok loc =>
              match goAtoi a.name with
              | .error e => (.error e, args)
              | .ok precision =>
                if precision < 0 then
                  (.error "malformed tick size specified for DateTime64", args)
                else
                  (.ok (.dateTimeParser unquote dateTime64Format loc precision.toNat),
                    args))
       | .timestampTag =>
         (.ok (.dateTimeParser unquote dateTime64Format (optLocOrUTC opt) 1), args)
       | .booleanTag => (.ok (.booleanParser 0), args)
       | .intTag signed bits => (.ok (.intParser signed bits), args)
       | .floatTag bits => (.ok (.floatParser bits), args)
       | .opaqueStringTag => (.ok (.stringParser unquote 0), args)
       | .fixedStringTag =>
         (match args with
          | [a] =>
            (match goAtoi a.name with
             | .error _ => (.error "malformed length specified for FixedString", args)
             | .ok len => (.ok (.stringParser unquote len), args))
          | _ => (.error "length not specified for FixedString", args))
       | .arrayTag =>
         (match args with
          | [a] =>
            (match newDataParser fuel a true opt with
             | (.ok sub, a') => (.ok (.arrayParser sub), [a'])
             | (.error _, a') =>
               (.error "failed to create parser for array elements", [a']))
          | _ => (.error "element type not specified for Array", args))
       | .tupleTag =>
         (match args with
          | [] => (.error "element types not specified for Tuple", args)
          | a :: rest =>
            match newDataParserList fuel (a :: rest) opt with
            | (.ok subs, args') => (.ok (.tupleParser subs), args')
            | (.error _, args') =>
              (.error "failed to create parser for tuple element", args'))
       | .mapTag =>
         (match args with
          | [a, b] =>
            (match newDataParser fuel a true opt with
             | (.error _, a') => (.error "failed to create parser for map keys", [a', b])
             | (.ok keyP, a') =>
               match newDataParser fuel b true opt with
               | (.error _, b') =>
                 (.error "failed to create parser for map values", [a', b'])
               | (.ok valP, b') => (.ok (.mapParser keyP valP), [a', b']))
          | _ => (.error "incorrect number of arguments for Map", args))
       | .unsupportedTag => (.error ("type " ++ nm ++ " is not supported"), args)) :=
  rfl

/- Boolean equality of decoded values, used for the Go map key update
(SetMapIndex overwrites an equal key). -/
mutual

def valueBeq : Value → Value → Bool
  | .null, .null => true
  | .str a, .str b => a == b
  | .boolean a, .boolean b => a == b
  | .intv s1 b1 v1, .intv s2 b2 v2 => s1 == s2 && b1 == b2 && v1 == v2
  | .floatv b1 v1, .floatv b2 v2 => b1 == b2 && v1 == v2
  | .time a, .time b => a == b
  | .arr l1, .arr l2 => valueListBeq l1 l2
  | .tup l1, .tup l2 => valueListBeq l1 l2
  | .mapv p1, .mapv p2 => valuePairsBeq p1 p2
  | _, _ => false

def valueListBeq : List Value → List Value → Bool
  | [], [] => true
  | a :: r1, b :: r2 => valueBeq a b && valueListBeq r1 r2
  | _, _ => false

def valuePairsBeq : List (Value × Value) → List (Value × Value) → Bool
  | [], [] => true
  | (k1, v1) :: r1, (k2, v2) :: r2 =>
    valueBeq k1 k2 && valueBeq v1 v2 && valuePairsBeq r1 r2
  | _, _ => false

end

/-- Go map assignment m.SetMapIndex: overwrite the value of an equal key,
else append the new pair. -/
def setAssoc : List (Value × Value) → Value → Value → List (Value × Value)
  | [], k, v => [(k, v)]
  | (k', v') :: rest, k, v =>
    if valueBeq k' k then (k', v) :: rest else (k', v') :: setAssoc rest k v

/-- The array element nil check of the source compares the dynamic type of
the element parser with the raw nullParser wrapper type, written
reflect.TypeOf of the element against reflect.TypeOf of a nullParser
pointer.  nullParser is a separate row-level wrapper defined in the source
that newDataParser never returns; every constructor of Parser corresponds to
one of the distinct Go struct types stringParser through nullableParser,
none of which is nullParser, so on the compiled decoder family the
comparison is always false. -/
def isRawNullWrapper : Parser → Bool := fun _ => false

mutual

/-- The Parse methods of the source, one match arm per parser struct.  The
fuel argument bounds the recursion depth: it is decremented exactly where
the Go code makes a nested Parse call or runs another composite-loop
iteration, and running out of fuel is reported as an error (the
corresponding Go executions would either be deeper than the fuel or, for a
handful of pathological parser and input combinations newDataParser never
produces, not terminate). -/
def parseF : Nat → Parser → Scanner → Except String Value × Scanner
  | 0, _, s => (.error "insufficient fuel", s)
  | fuel + 1, p, s =>
    match p with
    | .stringParser unq len =>
      (match readString s len unq with
       | (.ok str, s') => (.ok (.str str), s')
       | (.error e, s') => (.error e, s'))
    | .booleanParser len =>
      (match readUnquoted s len with
       | (.error _, s') => (.error "failed to read the string representation of boolean", s')
       | (.ok str, s') =>
         match goParseBool str with
         | .ok b => (.ok (.boolean b), s')
         | .error e => (.error e, s'))
    | .dateTimeParser unq format loc precision =>
      let l : Nat :=
        if precision > 0 then
          match format.toList.findIdx? (fun c => c = '.') with
          | some i => i + precision + 1
          | none => format.length
        else format.length
      (match readString s (l : Int) unq with
       | (.error _, s') =>
         (.error "failed to read the string representation of date or datetime", s')
       | (.ok str, s') =>
         let test := String.mk (str.toList.takeWhile (fun c => c ≠ ' '))
         if test = "0000-00-00" then (.ok (.time .zero), s')
         else (.ok (.time (.parsed format str loc)), s'))
    | .intParser signed bitSize =>
      (match readNumber s with
       | (txt, s') =>
         match goParseFloat txt with
         | .error e => (.error e, s')
         | .ok lit => (.ok (.intv signed bitSize (intWrap signed bitSize lit.trunc)), s'))
    | .floatParser bitSize =>
      (match readNumber s with
       | (txt, s') =>
         match goParseFloat txt with
         | .error e => (.error e, s')
         | .ok lit => (.ok (.floatv bitSize lit), s'))
    | .nothingParser => (.ok .null, s)
    | .nullableParser inner ty =>
      if ty = "String" then parseF fuel inner s
      else
        match peakNull s with
        | (true, s') => (.ok .null, s')
        | (false, s') => parseF fuel inner s'
    | .tupleParser args =>
      (match s.readRune with
       | (some '(', s1) => tupleLoopF fuel args s1 true []
       | (_, s1) => (.error "unexpected character at the beginning of tuple", s1))
    | .arrayParser arg =>
      (match s.readRune with
       | (some '[', s1) => arrayLoopF fuel arg s1 []
       | (_, s1) => (.error "unexpected character at the beginning of array", s1))
    | .mapParser key value =>
      (match s.readRune with
       | (some '{', s1) => mapLoopF fuel key value s1 []
       | (_, s1) => (.error "unexpected character at the beginning of map", s1))

/-- The element loop of tupleParser.Parse: a comma before every element but
the first, reflect field assignment (which panics on a nil element, modelled
as an error), then the closing parenthesis. -/
def tupleLoopF : Nat → List Parser → Scanner → Bool → List Value →
    Except String Value × Scanner
  | 0, _, s, _, _ => (.error "insufficient fuel", s)
  | fuel + 1, args, s, first, acc =>
    match args with
    | [] =>
      (match s.readRune with
       | (some ')', s') => (.ok (.tup acc.reverse), s')
       | (_, s') => (.error "unexpected character at the end of tuple", s'))
    | p :: rest =>
      match
        (if first then ((.ok () : Except String Unit), s)
         else
           match s.readRune with
           | (some ',', s') => ((.ok () : Except String Unit), s')
           | (_, s') => ((.error "unexpected character between tuple elements" :
               Except String Unit), s')) with
      | (.error e, s') => (.error e, s')
      | (.ok _, s') =>
        match parseF fuel p s' with
        | (.error _, s2) => (.error "failed to parse tuple element", s2)
        | (.ok v, s2) =>
          match v with
          | .null => (.error "panic: reflect Set with a nil tuple element", s2)
          | _ => tupleLoopF fuel rest s2 false (v :: acc)

/-- The element loop of arrayParser.Parse: peek for the closing bracket,
parse an element, apply the nil-element check, then consume an optional
comma separator. -/
def arrayLoopF : Nat → Parser → Scanner → List Value → Except String Value × Scanner
  | 0, _, s, _ => (.error "insufficient fuel", s)
  | fuel + 1, arg, s, acc =>
    match s.readRune with
    | (r, s1) =>
      let s2 := s1.unreadRune
      if r = some ']' then
        match s2.readRune with
        | (some ']', s3) => (.ok (.arr acc.reverse), s3)
        | (_, s3) => (.error "unexpected character at the end of array", s3)
      else
        match parseF fuel arg s2 with
        | (.error _, s3) => (.error "failed to parse array element", s3)
        | (.ok v, s3) =>
          match v with
          | .null =>
            if isRawNullWrapper arg then
              match s3.readRune with
              | (some ',', s4) => arrayLoopF fuel arg s4 acc
              | (_, s4) => arrayLoopF fuel arg s4.unreadRune acc
            else (.error "unexpected nil element", s3)
          | _ =>
            match s3.readRune with
            | (some ',', s4) => arrayLoopF fuel arg s4 (v :: acc)
            | (_, s4) => arrayLoopF fuel arg s4.unreadRune (v :: acc)

/-- The entry loop of mapParser.Parse: peek for the closing brace, parse a
key, expect a colon, parse a value, store the pair (reflect.SetMapIndex,
which panics on a nil key or value, modelled as an error; an equal key is
overwritten, last write wins), then consume an optional comma separator. -/
def mapLoopF : Nat → Parser → Parser → Scanner → List (Value × Value) →
    Except String Value × Scanner
  | 0, _, _, s, _ => (.error "insufficient fuel", s)
  | fuel + 1, key, value, s, acc =>
    match s.readRune with
    | (r, s1) =>
      let s2 := s1.unreadRune
      if r = some '}' then
        match s2.readRune with
        | (some '}', s3) => (.ok (.mapv acc), s3)
        | (_, s3) => (.error "unexpected character at the end of map", s3)
      else
        match parseF fuel key s2 with
        | (.error _, s3) => (.error "failed to parse map key", s3)
        | (.ok k, s3) =>
          match s3.readRune with
          | (some ':', s4) =>
            (match parseF fuel value s4 with
             | (.error _, s5) => (.error "failed to parse map value", s5)
             | (.ok v, s5) =>
               match k, v with
               | .null, _ => (.error "panic: reflect map assignment with nil", s5)
               | _, .null => (.error "panic: reflect map assignment with nil", s5)
               | _, _ =>
                 match s5.readRune with
                 | (some ',', s6) => mapLoopF fuel key value s6 (setAssoc acc k v)
                 | (_, s6) => mapLoopF fuel key value s6.unreadRune (setAssoc acc k v))
          | (_, s4) => (.error "unexpected character at the middle of map", s4)

end

/-! ## Scanner lemmas -/

theorem Scanner.readRune_rest_cons {s : Scanner} {c : Char} {tl : List Char}
    (h : s.rest = c :: tl) :
    s.readRune = (some c, ⟨s.data, s.pos + 1, true⟩) := by
  have hd : s.data[s.pos]? = some c := by
    rw [← List.head?_drop]
    rw [Scanner.rest] at h
    rw [h]
    rfl
  simp [Scanner.readRune, hd]

theorem Scanner.rest_after {s : Scanner} {c : Char} {tl : List Char} (b : Bool)
    (h : s.rest = c :: tl) :
    (⟨s.data, s.pos + 1, b⟩ : Scanner).rest = tl := by
  rw [Scanner.rest] at h ⊢
  simp only []
  rw [← List.tail_drop, h]
  rfl

theorem Scanner.readRune_rest_nil {s : Scanner} (h : s.rest = []) :
    s.readRune = (none, ⟨s.data, s.pos, false⟩) := by
  have hd : s.data[s.pos]? = none := by
    rw [← List.head?_drop]
    rw [Scanner.rest] at h
    rw [h]
    rfl
  simp [Scanner.readRune, hd]

/-- On a stream whose remaining input is exactly N U L L, peakNull succeeds,
leaving the stream at end of input. -/
theorem peakNull_rest_NULL {s : Scanner} (h : s.rest = ['N', 'U', 'L', 'L']) :
    peakNull s = (true, ⟨s.data, s.pos + 4, false⟩) := by
  have h1 := Scanner.readRune_rest_cons h
  have e1 := Scanner.rest_after true h
  have h2 := Scanner.readRune_rest_cons e1
  have e2 := Scanner.rest_after true e1
  have h3 := Scanner.readRune_rest_cons e2
  have e3 := Scanner.rest_after true e2
  have h4 := Scanner.readRune_rest_cons e3
  have e4 := Scanner.rest_after true e3
  have h5 := Scanner.readRune_rest_nil e4
  simp [peakNull, h1, h2, h3, h4, h5]

/-- On a stream with no pending pushback whose next rune is not N (or which
is at end of input), peakNull fails and returns the stream unchanged: the
single consumed rune is pushed back successfully. -/
theorem peakNull_no_pending {s : Scanner} (hcu : s.canUnread = false)
    (hh : s.rest.head? ≠ some 'N') : peakNull s = (false, s) := by
  obtain ⟨data, pos, cu⟩ := s
  simp only at hcu
  subst hcu
  cases hr : Scanner.rest ⟨data, pos, false⟩ with
  | nil =>
    have h1 := Scanner.readRune_rest_nil hr
    simp [peakNull, h1, Scanner.unreadRune]
  | cons c tl =>
    rw [hr] at hh
    have hc : c ≠ 'N' := by
      intro hcc
      exact hh (by rw [hcc]; rfl)
    have h1 := Scanner.readRune_rest_cons hr
    simp [peakNull, h1, hc, Scanner.unreadRune]

/-! ## Claim C2: the nullable NULL lookahead -/

/-- C2 counterexample: the claim is false at the compiled Nullable(Int8)
decoder.  On the input NULL1 the next four characters are exactly the
literal NULL, yet the decoder does not return null: peakNull reads a fifth
character and demands end of input, and on that mismatch only the last
consumed character can be pushed back, so the inner decoder sees the
remaining text 1 and returns the integer 1.  On the input NU7 the mismatch
occurs after three reads, only the 7 is pushed back, and the inner decoder
decodes 7 from a stream that is not the unchanged original. -/
theorem c2_nullable_lookahead_counterexample :
    (NewDataParser (.mk "Nullable" [.mk "Int8" [] false] false) none).1 =
      .ok (.nullableParser (.intParser true 8) "Int8") ∧
    (parseF 9 (.nullableParser (.intParser true 8) "Int8")
        (.fromString "NULL1")).1 = .ok (.intv true 8 1) ∧
    (Except.ok (Value.intv true 8 1) : Except String Value) ≠ .ok .null ∧
    (parseF 9 (.nullableParser (.intParser true 8) "Int8")
        (.fromString "NU7")).1 = .ok (.intv true 8 7) ∧
    (parseF 9 (.intParser true 8) (.fromString "NU7")).1.isOk = false := by
  refine ⟨by rfl, by rfl, by simp, by rfl, by rfl⟩

/-- C2 (amended): for a nullable decoder whose inner type name is not
String, the unquoted NULL literal is recognized only when the remaining
input is exactly the four characters NULL followed by end of input, in which
case null is returned without invoking the inner decoder; and backtracking
restores the stream only when at most one character was consumed: if the
next character is not N (or the stream is at end of input) and no pushback
is pending, the inner decoder runs on the identical stream.  (After a
mismatch deeper in the literal, only the last consumed character is pushed
back, as the counterexample shows.) -/
theorem c2_nullable_lookahead_amended :
    (∀ (inner : Parser) (nm : String) (s : Scanner) (fuel : Nat),
        nm ≠ "String" → s.rest = "NULL".toList →
        (parseF (fuel + 1) (.nullableParser inner nm) s).1 = .ok .null) ∧
    (∀ (inner : Parser) (nm : String) (s : Scanner) (fuel : Nat),
        nm ≠ "String" → s.canUnread = false → s.rest.head? ≠ some 'N' →
        parseF (fuel + 1) (.nullableParser inner nm) s = parseF fuel inner s) := by
  constructor
  · intro inner nm s fuel hnm hrest
    have h := peakNull_rest_NULL (s := s) (by rw [hrest]; rfl)
    simp [parseF, hnm, h]
  · intro inner nm s fuel hnm hcu hh
    have h := peakNull_no_pending hcu hh
    simp [parseF, hnm, h]

/-- Witness for C2 (amended) at the nullable Int8 decoder: input NULL gives
null, and on input 12 the wrapper defers to the inner decoder on the
unchanged stream. -/
theorem c2_nullable_lookahead_amended_witness :
    (parseF 3 (.nullableParser (.intParser true 8) "Int8")
        (.fromString "NULL")).1 = .ok .null ∧
    parseF 3 (.nullableParser (.intParser true 8) "Int8") (.fromString "12") =
      parseF 2 (.intParser true 8) (.fromString "12") :=
  ⟨c2_nullable_lookahead_amended.1 _ _ _ 2 (by simp) (by rfl),
   c2_nullable_lookahead_amended.2 _ _ _ 2 (by simp) (by rfl) (by simp [Scanner.fromString, Scanner.rest])⟩

/-! ## Claim C5: null markers against nullable and non-nullable decoders -/

/-- C5 counterexample: the claim is false for nullable string types.  The
decoder compiled from Nullable(String) delegates directly to the string
decoder without any null pre-check, and the string decoder unescapes the
marker to the one-character text N: decoding the escaped marker backslash-N
returns the string N, not null. -/
theorem c5_null_markers_counterexample :
    (NewDataParser (.mk "Nullable" [.mk "String" [] false] false) none).1 =
      .ok (.nullableParser (.stringParser false 0) "String") ∧
    (parseF 9 (.nullableParser (.stringParser false 0) "String")
        (.fromString "\\N")).1 = .ok (.str "N") ∧
    (Except.ok (Value.str "N") : Except String Value) ≠ .ok .null := by
  refine ⟨by rfl, by rfl, by simp⟩

/-- C5 (amended): a nullable decoder with a non-String inner type returns
null on the unquoted literal NULL (the whole remaining input); a nullable
decoder with inner type String performs no interception at all and behaves
exactly as its inner string decoder on every input (so the escaped marker
decodes as ordinary text, to N); and non-nullable decoders handle the
literals by their own rules with no special interception: the Int8 decoder
rejects NULL as a malformed number while the String decoder returns it as
the text NULL. -/
theorem c5_null_markers_amended :
    (∀ (inner : Parser) (nm : String) (s : Scanner) (fuel : Nat),
        nm ≠ "String" → s.rest = "NULL".toList →
        (parseF (fuel + 1) (.nullableParser inner nm) s).1 = .ok .null) ∧
    (∀ (inner : Parser) (s : Scanner) (fuel : Nat),
        parseF (fuel + 1) (.nullableParser inner "String") s = parseF fuel inner s) ∧
    (parseF 9 (.intParser true 8) (.fromString "NULL")).1.isOk = false ∧
    (parseF 9 (.stringParser false 0) (.fromString "NULL")).1 = .ok (.str "NULL") := by
  refine ⟨?_, ?_, by rfl, by rfl⟩
  · intro inner nm s fuel hnm hrest
    have h := peakNull_rest_NULL (s := s) (by rw [hrest]; rfl)
    simp [parseF, hnm, h]
  · intro inner s fuel
    simp [parseF]

/-- Witness for C5 (amended): the nullable Int8 decoder maps the literal
NULL to null, and the nullable String decoder is the plain string decoder. -/
theorem c5_null_markers_amended_witness :
    (parseF 3 (.nullableParser (.intParser true 8) "Int8")
        (.fromString "NULL")).1 = .ok .null ∧
    parseF 3 (.nullableParser (.stringParser false 0) "String")
        (.fromString "\\N") =
      parseF 2 (.stringParser false 0) (.fromString "\\N") :=
  ⟨c5_null_markers_amended.1 _ _ _ 2 (by simp) (by rfl),
   c5_null_markers_amended.2.1 _ _ 2⟩

/-! ## Claim C3: null elements inside arrays -/

/-- C3 counterexample: the claim is false on both of its parts.  The decoder
compiled from Array(Nullable(T)) does not accept a null element: on the
input with one NULL element the element decoder itself fails (the NULL
lookahead demands end of input and the failed backtracking leaves a damaged
stream), so the array decode errors instead of succeeding.  And the decoder
compiled from Array(Nothing), whose element decoder is the always-null
decoder, reports the nil-element decode error: the source compares the
element decoder type against the raw nullParser wrapper, not against
nullable-capable decoders. -/
theorem c3_array_nil_counterexample :
    (NewDataParser (.mk "Array" [.mk "Nullable" [.mk "Int8" [] false] false] false)
        none).1 = .ok (.arrayParser (.nullableParser (.intParser true 8) "Int8")) ∧
    (parseF 9 (.arrayParser (.nullableParser (.intParser true 8) "Int8"))
        (.fromString "[NULL]")).1 = .error "failed to parse array element" ∧
    (NewDataParser (.mk "Array" [.mk "Nothing" [] false] false) none).1 =
      .ok (.arrayParser .nothingParser) ∧
    (parseF 9 (.arrayParser .nothingParser) (.fromString "[9]")).1 =
      .error "unexpected nil element" := by
  refine ⟨by rfl, by rfl, by rfl, by rfl⟩

/-- C3 (amended): for every array decoder built over a compiled element
decoder, a decoded null element is never accepted: whenever the element
decoder returns null for the first element, the array decode reports the
nil-element decode error (the source only admits null from the raw
nullParser row wrapper, a type the decoder compiler never produces). -/
theorem c3_array_nil_amended :
    ∀ (elem : Parser) (s s1 s2 s3 : Scanner) (fuel : Nat) (c : Option Char),
      s.readRune = (some '[', s1) →
      s1.readRune = (c, s2) →
      c ≠ some ']' →
      parseF fuel elem s2.unreadRune = (.ok .null, s3) →
      parseF (fuel + 2) (.arrayParser elem) s =
        (.error "unexpected nil element", s3) := by
  intro elem s s1 s2 s3 fuel c h1 h2 h3 h4
  show parseF ((fuel + 1) + 1) (.arrayParser elem) s = _
  simp [parseF, arrayLoopF, h1, h2, h3, h4, isRawNullWrapper]

/-- Witness for C3 (amended): the Array(Nothing) decoder on an input with
one element reports the nil-element decode error. -/
theorem c3_array_nil_amended_witness :
    parseF 3 (.arrayParser .nothingParser) (.fromString "[1]") =
      (.error "unexpected nil element", ⟨"[1]".toList, 1, false⟩) :=
  c3_array_nil_amended .nothingParser _ _ _ _ 1 (some '1') rfl rfl (by simp) rfl

/-! ## Claim C6: Nullable(T) versus the nullable flag -/

/-- C6 counterexample: the claim fails when T itself already carries the
nullable flag.  For T with name Int8 and nullable set, compiling
Nullable(T) produces a doubly wrapped decoder while compiling T with its
nullable flag set produces a singly wrapped one, and the two differ
observably: on the input NULLNULL the double wrapper returns null (the
failed outer lookahead pushes back one character, leaving exactly NULL for
the inner lookahead) while the single wrapper fails with a number parse
error. -/
theorem c6_nullable_equivalence_counterexample :
    (newDataParser 10 (.mk "Nullable" [.mk "Int8" [] true] false) false none).1 =
      .ok (.nullableParser (.nullableParser (.intParser true 8) "Int8") "Int8") ∧
    (newDataParser 10 (.mk "Int8" [] true) false none).1 =
      .ok (.nullableParser (.intParser true 8) "Int8") ∧
    (parseF 9 (.nullableParser (.nullableParser (.intParser true 8) "Int8") "Int8")
        (.fromString "NULLNULL")).1 = .ok .null ∧
    (parseF 9 (.nullableParser (.intParser true 8) "Int8")
        (.fromString "NULLNULL")).1.isOk = false := by
  refine ⟨by rfl, by rfl, by rfl, by rfl⟩

/-- C6 (amended): for every descriptor T whose own nullable flag is clear,
compiling the descriptor Nullable(T) and compiling T with its nullable flag
set produce the same compiled decoder, hence the same result on every input
text.  (The two fuel offsets account for the two extra call levels the
Nullable wrapper descriptor adds.) -/
theorem c6_nullable_equivalence_amended :
    ∀ (T : TypeDesc) (unquote : Bool) (opt : Option DataParserOptions) (fuel : Nat),
      T.isNullable = false →
      (newDataParser (fuel + 4) (.mk "Nullable" [T] false) unquote opt).1 =
        (newDataParser (fuel + 2) (.mk T.name T.args true) unquote opt).1 := by
  intro T unquote opt fuel h
  obtain ⟨nm, args, nb⟩ := T
  simp only [TypeDesc.isNullable] at h
  subst h
  simp only [TypeDesc.name, TypeDesc.args]
  rcases hc : newDataParserCore (fuel + 1) nm args unquote opt with ⟨r, args'⟩
  have h2 : newDataParser (fuel + 2) (.mk nm args false) unquote opt =
      (r, .mk nm args' false) := by
    show (match newDataParserCore (fuel + 1) nm args unquote opt with
          | (r0, args0) => (r0, TypeDesc.mk nm args0 false)) = _
    rw [hc]
  cases r with
  | ok p =>
    have h3 : (newDataParser (fuel + 4) (.mk "Nullable" [.mk nm args false] false)
        unquote opt).1 = .ok (.nullableParser p nm) := by
      show (match
              (match newDataParser (fuel + 2) (.mk nm args false) unquote opt with
               | (.ok inner, a') =>
                 ((.ok (.nullableParser inner a'.name) : Except String Parser), [a'])
               | (.error e, a') => ((.error e : Except String Parser), [a'])) with
            | (r0, args0) => (r0, TypeDesc.mk "Nullable" args0 false)).1 = _
      rw [h2]
      rfl
    have h4 : (newDataParser (fuel + 2) (.mk nm args true) unquote opt).1 =
        .ok (.nullableParser p nm) := by
      show (match newDataParserCore (fuel + 1) nm args unquote opt with
            | (.ok q, a') =>
              ((.ok (.nullableParser q nm) : Except String Parser), TypeDesc.mk nm a' false)
            | (.error e, a') =>
              ((.error e : Except String Parser), TypeDesc.mk nm a' false)).1 = _
      rw [hc]
    rw [h3, h4]
  | error e =>
    have h3 : (newDataParser (fuel + 4) (.mk "Nullable" [.mk nm args false] false)
        unquote opt).1 = .error e := by
      show (match
              (match newDataParser (fuel + 2) (.mk nm args false) unquote opt with
               | (.ok inner, a') =>
                 ((.ok (.nullableParser inner a'.name) : Except String Parser), [a'])
               | (.error e0, a') => ((.error e0 : Except String Parser), [a'])) with
            | (r0, args0) => (r0, TypeDesc.mk "Nullable" args0 false)).1 = _
      rw [h2]
    have h4 : (newDataParser (fuel + 2) (.mk nm args true) unquote opt).1 =
        .error e := by
      show (match newDataParserCore (fuel + 1) nm args unquote opt with
            | (.ok q, a') =>
              ((.ok (.nullableParser q nm) : Except String Parser), TypeDesc.mk nm a' false)
            | (.error e0, a') =>
              ((.error e0 : Except String Parser), TypeDesc.mk nm a' false)).1 = _
      rw [hc]
    rw [h3, h4]

/-- Witness for C6 (amended) at T = Int8. -/
theorem c6_nullable_equivalence_amended_witness :
    (newDataParser 4 (.mk "Nullable" [.mk "Int8" [] false] false) false none).1 =
      (newDataParser 2 (.mk "Int8" [] true) false none).1 :=
  c6_nullable_equivalence_amended (.mk "Int8" [] false) false none 0 rfl

/-! ## Claim C1: compile does not mutate the descriptor -/

/-- Post-state preservation: on descriptor trees with no nullable flag set
anywhere, the compiler leaves the descriptor unchanged.  Proved for the
three mutually recursive compile functions simultaneously by induction on
the fuel. -/
theorem newDataParser_post (fuel : Nat) :
    (∀ t unquote opt, t.noNullable = true →
      (newDataParser fuel t unquote opt).2 = t) ∧
    (∀ nm args unquote opt, TypeDesc.noNullableList args = true →
      (newDataParserCore fuel nm args unquote opt).2 = args) ∧
    (∀ l opt, TypeDesc.noNullableList l = true →
      (newDataParserList fuel l opt).2 = l) := by
  induction fuel with
  | zero => exact ⟨fun t u o _ => rfl, fun nm args u o _ => rfl, fun l o _ => rfl⟩
  | succ fuel ih =>
    obtain ⟨ih1, ih2, ih3⟩ := ih
    refine ⟨?_, ?_, ?_⟩
    · intro t u o h
      obtain ⟨nm, args, nb⟩ := t
      rw [TypeDesc.noNullable] at h
      simp only [Bool.and_eq_true, Bool.not_eq_true'] at h
      obtain ⟨hnb, hargs⟩ := h
      subst hnb
      show (match newDataParserCore fuel nm args u o with
            | (r, args') => (r, TypeDesc.mk nm args' false)).2 = _
      rcases hc : newDataParserCore fuel nm args u o with ⟨r, args'⟩
      have : args' = args := by
        have := ih2 nm args u o hargs
        rw [hc] at this
        exact this
      rw [this]
    · intro nm args u o h
      rw [newDataParserCore_succ]
      split <;> try rfl
      -- Nullable
      · split
        · rfl
        · rename_i a rest
          rw [TypeDesc.noNullableList] at h
          simp only [Bool.and_eq_true] at h
          rcases hd : newDataParser fuel a u o with ⟨r, a'⟩
          have ha : a' = a := by
            have := ih1 a u o h.1
            rw [hd] at this
            exact this
          cases r <;> simp [hd, ha]
      -- DateTime
      · split
        · split
          · split <;> rfl
          · rfl
        · rfl
      -- DateTime64
      · split
        · rfl
        · split <;> try rfl
          split <;> try rfl
          split <;> rfl
      -- FixedString
      · split
        · split <;> rfl
        · rfl
      -- Array
      · split
        · rename_i a
          rw [TypeDesc.noNullableList] at h
          simp only [Bool.and_eq_true] at h
          rcases hd : newDataParser fuel a true o with ⟨r, a'⟩
          have ha : a' = a := by
            have := ih1 a true o h.1
            rw [hd] at this
            exact this
          cases r <;> simp [hd, ha]
        · rfl
      -- Tuple
      · split
        · rfl
        · rename_i a rest
          rcases hd : newDataParserList fuel (a :: rest) o with ⟨r, args'⟩
          have ha : args' = a :: rest := by
            have := ih3 (a :: rest) o h
            rw [hd] at this
            exact this
          cases r <;> simp [hd, ha]
      -- Map
      · split
        · rename_i a b
          rw [TypeDesc.noNullableList, TypeDesc.noNullableList] at h
          simp only [Bool.and_eq_true] at h
          rcases hd : newDataParser fuel a true o with ⟨r1, a'⟩
          have ha : a' = a := by
            have := ih1 a true o h.1
            rw [hd] at this
            exact this
          rcases he : newDataParser fuel b true o with ⟨r2, b'⟩
          have hb : b' = b := by
            have := ih1 b true o h.2.1
            rw [he] at this
            exact this
          cases r1 <;> cases r2 <;> simp [hd, he, ha, hb]
        · rfl
    · intro l o h
      cases l with
      | nil => rfl
      | cons a rest =>
        rw [TypeDesc.noNullableList] at h
        simp only [Bool.and_eq_true] at h
        show (match newDataParser fuel a true o with
              | (.error e, a') =>
                ((.error e : Except String (List Parser)), a' :: rest)
              | (.ok p, a') =>
                match newDataParserList fuel rest o with
                | (.error e, rest') =>
                  ((.error e : Except String (List Parser)), a' :: rest')
                | (.ok ps, rest') =>
                  ((.ok (p :: ps) : Except String (List Parser)),
                    a' :: rest')).2 = a :: rest
        rcases hd : newDataParser fuel a true o with ⟨r, a'⟩
        have ha : a' = a := by
          have := ih1 a true o h.1
          rw [hd] at this
          exact this
        rcases he : newDataParserList fuel rest o with ⟨r2, rest'⟩
        have hr : rest' = rest := by
          have := ih3 rest o h.2
          rw [he] at this
          exact this
        cases r <;> cases r2 <;> simp [hd, he, ha, hr]

/-- C1 counterexample: the claim is false.  Compiling the descriptor Int8
with the nullable flag set clears that flag in the caller's descriptor (the
source assigns t.Nullable = false and never restores it), and compiling the
same descriptor twice therefore yields decoders with different behavior:
the first compile returns the nullable wrapper, the second compile of the
now-mutated descriptor returns the bare integer decoder, and on the input
NULL the first returns null while the second fails. -/
theorem c1_descriptor_mutation_counterexample :
    (NewDataParser (.mk "Int8" [] true) none).2 = .mk "Int8" [] false ∧
    (TypeDesc.mk "Int8" [] false) ≠ .mk "Int8" [] true ∧
    (NewDataParser (.mk "Int8" [] true) none).1 =
      .ok (.nullableParser (.intParser true 8) "Int8") ∧
    (NewDataParser (.mk "Int8" [] false) none).1 = .ok (.intParser true 8) ∧
    (parseF 9 (.nullableParser (.intParser true 8) "Int8")
        (.fromString "NULL")).1 = .ok .null ∧
    (parseF 9 (.intParser true 8) (.fromString "NULL")).1.isOk = false := by
  refine ⟨by rfl, by simp, by rfl, by rfl, by rfl, by rfl⟩

/-- C1 (amended): the compiler mutates exactly the nullable flags: on every
descriptor tree in which no nullable flag is set, compile leaves the
descriptor unchanged (and hence compiling such a descriptor twice yields
identical decoders); a descriptor with the flag set is mutated, as the
counterexample shows. -/
theorem c1_descriptor_mutation_amended :
    ∀ (t : TypeDesc) (fuel : Nat) (unquote : Bool) (opt : Option DataParserOptions),
      t.noNullable = true → (newDataParser fuel t unquote opt).2 = t :=
  fun t fuel u o h => (newDataParser_post fuel).1 t u o h

/-- Witness for C1 (amended) at the descriptor Array(Int32). -/
theorem c1_descriptor_mutation_amended_witness :
    (newDataParser 8 (.mk "Array" [.mk "Int32" [] false] false) false none).2 =
      .mk "Array" [.mk "Int32" [] false] false :=
  c1_descriptor_mutation_amended (.mk "Array" [.mk "Int32" [] false] false) 8
    false none rfl

/-! ## Claim C9: DateTime64 build errors -/

/-- C9: compiling a DateTime64 descriptor with no arguments is a build
error, and compiling one whose precision argument is the literal -1 is a
build error; no decoder is returned in either case. -/
theorem c9_datetime64_build_errors :
    (NewDataParser (.mk "DateTime64" [] false) none).1 =
      .error "tick size not specified for DateTime64" ∧
    (NewDataParser (.mk "DateTime64" [.mk "-1" [] false] false) none).1 =
      .error "malformed tick size specified for DateTime64" :=
  ⟨rfl, rfl⟩

/-! ## Claim C7: DateTime timezone resolution -/

/-- Spec form: the default location is unset when the options are absent or
carry no location. -/
def defaultLocationUnset : Option DataParserOptions → Bool
  | none => true
  | some o => o.location.isNone

/-- Spec form: the prefer-db-location flag of the options. -/
def preferDBLocation : Option DataParserOptions → Bool
  | none => false
  | some o => o.useDBLocation

/-- Spec form: the default location when set, else UTC. -/
def defaultLocationOrUTC : Option DataParserOptions → Location
  | none => .utc
  | some o => o.location.getD .utc

/-- Spec form of the DateTime timezone resolution rule, written from the
spec text: if a timezone argument is present and (the default location is
unset OR prefer-db-location is set), resolve and use the named timezone from
the first argument (resolution failure being a build error); otherwise use
the default location if set, else UTC. -/
def specResolvedDateTimeZone (args : List TypeDesc)
    (opt : Option DataParserOptions) : Except String Location :=
  match args with
  | a :: _ =>
    if defaultLocationUnset opt || preferDBLocation opt then loadLocation a.name
    else .ok (defaultLocationOrUTC opt)
  | [] => .ok (defaultLocationOrUTC opt)

theorem useArgZone_eq_spec (o : Option DataParserOptions) :
    useArgZone o = (defaultLocationUnset o || preferDBLocation o) := by
  cases o with
  | none => rfl
  | some o => rfl

theorem optLocOrUTC_eq_spec (o : Option DataParserOptions) :
    optLocOrUTC o = defaultLocationOrUTC o := by
  cases o with
  | none => rfl
  | some o => rfl

/-- The DateTime arm of the compiler, reduced to the spec-form timezone
resolution: the compiled decoder is a second-precision date/time decoder
whose location is exactly the spec-resolved zone, resolution failure is the
build error, and the argument descriptors are not mutated. -/
theorem newDataParserCore_dateTime (fuel : Nat) (args : List TypeDesc)
    (unquote : Bool) (opt : Option DataParserOptions) :
    newDataParserCore (fuel + 1) "DateTime" args unquote opt =
      ((specResolvedDateTimeZone args opt).map
        (fun loc => .dateTimeParser unquote timeFormat loc 0), args) := by
  rw [newDataParserCore_succ]
  have ht : typeTagOf "DateTime" = .dateTimeTag := rfl
  simp only [ht]
  rcases args with _ | ⟨a, rest⟩
  · simp [specResolvedDateTimeZone, optLocOrUTC_eq_spec, Except.map]
  · rw [useArgZone_eq_spec, optLocOrUTC_eq_spec]
    rcases hb : (defaultLocationUnset opt || preferDBLocation opt) with _ | _
    · simp [specResolvedDateTimeZone, hb, Except.map]
    · rcases hl : loadLocation a.name with e | loc <;>
        simp [specResolvedDateTimeZone, hb, hl, Except.map]

/-- C7: for every DateTime descriptor (with or without the nullable flag)
and every option value, the compiled decoder is the second-precision
date/time decoder whose timezone is the spec-resolved zone: the named zone
from the first argument when one is present and (the default location is
unset OR prefer-db-location is set), resolution failure being a build error;
otherwise the default location when set, else UTC. -/
theorem c7_datetime_timezone :
    ∀ (args : List TypeDesc) (nb unquote : Bool) (opt : Option DataParserOptions)
      (fuel : Nat),
      (newDataParser (fuel + 2) (.mk "DateTime" args nb) unquote opt).1 =
        (specResolvedDateTimeZone args opt).map
          (fun loc =>
            if nb then
              .nullableParser (.dateTimeParser unquote timeFormat loc 0) "DateTime"
            else .dateTimeParser unquote timeFormat loc 0) := by
  intro args nb unquote opt fuel
  have hc := newDataParserCore_dateTime fuel args unquote opt
  cases nb with
  | false =>
    show (match newDataParserCore (fuel + 1) "DateTime" args unquote opt with
          | (r, args') => (r, TypeDesc.mk "DateTime" args' false)).1 = _
    rw [hc]
    rcases hs : specResolvedDateTimeZone args opt with e | loc <;> simp [hs, Except.map]
  | true =>
    show (match newDataParserCore (fuel + 1) "DateTime" args unquote opt with
          | (.ok p, args') =>
            ((.ok (.nullableParser p "DateTime") : Except String Parser),
              TypeDesc.mk "DateTime" args' false)
          | (.error e, args') => (.error e, TypeDesc.mk "DateTime" args' false)).1 = _
    rw [hc]
    rcases hs : specResolvedDateTimeZone args opt with e | loc <;> simp [hs, Except.map]

/-! ## Claim C4: the all-zero date sentinel -/

/-- The readUnquoted loop reads exactly the k remaining runes it was asked
for when they are available and contain no escape character. -/
theorem readUnquotedLoop_reads (k : Nat) :
    ∀ (fuel : Nat) (s : Scanner) (length count : Int) (acc : List Char),
      k ≤ fuel →
      (k : Int) + count = length →
      0 < length →
      k ≤ s.rest.length →
      (∀ c ∈ s.rest.take k, c ≠ '\\') →
      readUnquotedLoop fuel s length count acc =
        (.ok (acc.reverse ++ s.rest.take k, count + k),
          if k = 0 then s else ⟨s.data, s.pos + k, true⟩) := by
  induction k with
  | zero =>
    intro fuel s length count acc _ hsum hpos _ _
    have hne : ¬(length = 0) := by omega
    have hlt : ¬(count < length) := by omega
    cases fuel with
    | zero => simp [readUnquotedLoop]
    | succ fuel => simp [readUnquotedLoop, hne, hlt]
  | succ k ih =>
    intro fuel s length count acc hfuel hsum hpos hrest hnb
    cases fuel with
    | zero => omega
    | succ fuel =>
      cases hr : s.rest with
      | nil =>
        rw [hr] at hrest
        simp at hrest
      | cons c tl =>
        have hc : c ≠ '\\' := by
          apply hnb
          rw [hr]
          simp
        have hread := Scanner.readRune_rest_cons hr
        have htl := Scanner.rest_after true hr
        have hlt : count < length := by omega
        have ihapp := ih fuel ⟨s.data, s.pos + 1, true⟩ length (count + 1) (c :: acc)
          (by omega) (by omega) hpos
          (by
            rw [htl]
            rw [hr] at hrest
            simpa using hrest)
          (by
            intro x hx
            apply hnb
            rw [hr, htl] at *
            simp only [List.take_succ_cons, List.mem_cons]
            right
            exact hx)
        rw [readUnquotedLoop]
        simp only [hread, hc, if_pos (Or.inr hlt)]
        rw [if_neg (by simp [hc])]
        rw [ihapp, htl]
        simp only [Prod.mk.injEq, Except.ok.injEq, List.take_succ_cons]
        refine ⟨⟨by simp, by push_cast; omega⟩, ?_⟩
        cases k with
        | zero => simp
        | succ k =>
          rw [if_neg (Nat.succ_ne_zero k), if_neg (Nat.succ_ne_zero (k + 1))]
          simp only [Scanner.mk.injEq]
          exact ⟨trivial, by omega, trivial⟩

/-- readUnquoted with a positive length returns exactly the first length
runes of the remaining input when they are available and escape-free. -/
theorem readUnquoted_reads (s : Scanner) (l : Nat) (hl : 0 < l)
    (hrest : l ≤ s.rest.length) (hnb : ∀ c ∈ s.rest.take l, c ≠ '\\') :
    readUnquoted s (l : Int) =
      (.ok (String.mk (s.rest.take l)), ⟨s.data, s.pos + l, true⟩) := by
  have hfuel : l ≤ s.data.length + 1 := by
    have := hrest
    rw [Scanner.rest] at this
    have h2 : (s.data.drop s.pos).length ≤ s.data.length := by
      simp [List.length_drop]
    omega
  have hloop := readUnquotedLoop_reads l (s.data.length + 1) s (l : Int) 0 []
    hfuel (by omega) (by positivity) hrest hnb
  rw [readUnquoted, hloop]
  have hnz : ¬(l = 0) := by omega
  simp [hnz]

/-- C4 counterexample: the claim is false for decoders whose read length
exceeds ten characters.  The decoder compiled from a DateTime descriptor
reads a fixed nineteen characters; on the bare input 0000-00-00 (no time
suffix) it fails with a read error instead of returning the zero
timestamp.  The sentinel is only honored when the input supplies the full
fixed-length text. -/
theorem c4_zero_date_counterexample :
    (NewDataParser (.mk "DateTime" [] false) none).1 =
      .ok (.dateTimeParser false timeFormat .utc 0) ∧
    (parseF 9 (.dateTimeParser false timeFormat .utc 0)
        (.fromString "0000-00-00")).1 =
      .error "failed to read the string representation of date or datetime" ∧
    (parseF 9 (.dateTimeParser false timeFormat .utc 0)
        (.fromString "0000-00-00 00:00:00")).1 = .ok (.time .zero) :=
  ⟨rfl, rfl, rfl⟩

/-- C4 (amended): for every date/time decoder in unquoted mode, decoding
input that supplies the decoder's full fixed read length — escape-free text
whose segment before the first space is exactly 0000-00-00 — returns the
zero-value timestamp and never a parse error; input shorter than the read
length is a read error, as the counterexample shows.  The read length l is
the format length, or the fractional-second position for a positive
precision, exactly as computed by the source. -/
theorem c4_zero_date_amended :
    ∀ (format : String) (loc : Location) (precision : Nat) (s : Scanner)
      (fuel l : Nat),
      l = (if precision > 0 then
             match format.toList.findIdx? (fun c => c = '.') with
             | some i => i + precision + 1
             | none => format.length
           else format.length) →
      0 < l →
      l ≤ s.rest.length →
      (∀ c ∈ s.rest.take l, c ≠ '\\') →
      (s.rest.take l).takeWhile (fun c => c ≠ ' ') = "0000-00-00".toList →
      (parseF (fuel + 1) (.dateTimeParser false format loc precision) s).1 =
        .ok (.time .zero) := by
  intro format loc precision s fuel l hL hpos hlen hnb hzero
  have hread := readUnquoted_reads s l hpos hlen hnb
  rw [parseF]
  rw [← hL]
  rw [readString]
  simp only [if_neg (Bool.false_ne_true)]
  rw [hread]
  have hcond : String.mk
      (List.takeWhile (fun c => !decide (c = ' ')) (List.take l s.rest)) =
      "0000-00-00" := by
    have hpred : (fun c : Char => !decide (c = ' ')) =
        (fun c : Char => decide (c ≠ ' ')) := by
      funext c
      simp
    rw [hpred, hzero]
    rfl
  simp [hcond]

/-- Witness for C4 (amended): the Date decoder maps the bare literal
0000-00-00 to the zero timestamp. -/
theorem c4_zero_date_amended_witness :
    (parseF 1 (.dateTimeParser false dateFormat .utc 0)
        (.fromString "0000-00-00")).1 = .ok (.time .zero) :=
  c4_zero_date_amended dateFormat .utc 0 (.fromString "0000-00-00") 0 10
    (by decide) (by decide) (by decide) (by decide) (by decide)

end DatabendGo
